import Mathlib

/-!
Verification of the ZondaPro wind-load engine (CIRSOC 102-05).

Shallow embedding of the numeric core:
* enums from sse102/enums.py,
* sign force coefficients from zonda/cirsoc/cp/cartel.py,
* isolated-roof coefficient construction from zonda/cirsoc/cp/aisladas.py,
* height arrays from zonda/cirsoc/geometria/utils_alturas.py,
* roof geometry from zonda/cirsoc/geometria/cubiertas.py,
* gust and topographic factors from sse102/cirsoc/factores.py,
* pressure assembly from sse102/cirsoc/presiones/edificio.py,
* component coefficient interpolation from zonda/cirsoc/cp/edificio.py.

Purely rational arithmetic is embedded over ℚ (so statements evaluate by
kernel reduction); code that uses transcendental functions (atan, log, exp,
sqrt, real powers) is embedded over ℝ.
-/

/-- Enum Cerramiento from sse102/enums.py. -/
inductive Cerramiento
  | CERRADO
  | PARCIALMENTE_CERRADO
  | ABIERTO
deriving DecidableEq

/-- Enum CategoriaExposicion from sse102/enums.py. -/
inductive CategoriaExposicion
  | A
  | B
  | C
  | D
deriving DecidableEq

/-- Enum Flexibilidad from sse102/enums.py. -/
inductive Flexibilidad
  | RIGIDA
  | FLEXIBLE
deriving DecidableEq

/-- Enum TipoTerrenoTopografia from sse102/enums.py. -/
inductive TipoTerrenoTopografia
  | LOMA_BIDIMENSIONAL
  | ESCARPA_BIDIMENSIONAL
  | COLINA_TRIDIMENSIONAL
deriving DecidableEq

/-- Enum DireccionTopografia from sse102/enums.py. -/
inductive DireccionTopografia
  | BARLOVENTO
  | SOTAVENTO
deriving DecidableEq

/-- Enum TipoCubierta from sse102/enums.py. -/
inductive TipoCubierta
  | PLANA
  | UN_AGUA
  | DOS_AGUAS
deriving DecidableEq

/-- Enum PosicionBloqueoCubierta from sse102/enums.py. -/
inductive PosicionBloqueoCubierta
  | ALERO_BAJO
  | ALERO_ALTO
deriving DecidableEq

/-- Linear table interpolation with end-point clamping, the semantics of
numpy.interp for a table with strictly increasing abscissae, given as a list
of (x, y) pairs. -/
def interp (x : ℚ) : List (ℚ × ℚ) → ℚ
  | [] => 0
  | [(_, y1)] => y1
  | (x1, y1) :: (x2, y2) :: rest =>
    if x ≤ x1 then y1
    else if x ≤ x2 then y1 + (y2 - y1) * (x - x1) / (x2 - x1)
    else interp x ((x2, y2) :: rest)

/-- Table of Cartel._sobre_nivel_terreno (zonda/cirsoc/cp/cartel.py):
m_n = (6, 10, 16, 20, 40, 60, 80), cfs = (1.2, 1.3, 1.4, 1.5, 1.75, 1.85, 2). -/
def tabla_cf_sobre_nivel_terreno : List (ℚ × ℚ) :=
  [(6, 1.2), (10, 1.3), (16, 1.4), (20, 1.5), (40, 1.75), (60, 1.85), (80, 2)]

/-- Table of Cartel._a_nivel_terreno (zonda/cirsoc/cp/cartel.py):
m_n = (3, 5, 8, 10, 20, 30, 40), cfs = (1.2, 1.3, 1.4, 1.5, 1.75, 1.85, 2). -/
def tabla_cf_a_nivel_terreno : List (ℚ × ℚ) :=
  [(3, 1.2), (5, 1.3), (8, 1.4), (10, 1.5), (20, 1.75), (30, 1.85), (40, 2)]

/-- Class Cartel from zonda/cirsoc/cp/cartel.py (constructor fields). -/
structure Cartel where
  altura_inferior : ℚ
  altura_neta : ℚ
  ancho : ℚ
  es_parapeto : Bool
deriving DecidableEq

/-- Cartel.sobre_nivel_terreno: False if the sign is a parapet or its lower
height is below 25% of its net height, True otherwise. -/
def Cartel.sobre_nivel_terreno (c : Cartel) : Bool :=
  if c.altura_inferior < 0.25 * c.altura_neta ∨ c.es_parapeto = true then false
  else true

/-- Cartel._sobre_nivel_terreno: interpolates max(h, w) / min(h, w) on the
elevated-sign table. -/
def Cartel.cf_sobre_nivel_terreno (c : Cartel) : ℚ :=
  interp (max c.altura_neta c.ancho / min c.altura_neta c.ancho)
    tabla_cf_sobre_nivel_terreno

/-- Cartel._a_nivel_terreno: interpolates altura_neta / ancho on the
ground-level table. -/
def Cartel.cf_a_nivel_terreno (c : Cartel) : ℚ :=
  interp (c.altura_neta / c.ancho) tabla_cf_a_nivel_terreno

/-- Cartel.cf: dispatches on Cartel.sobre_nivel_terreno. -/
def Cartel.cf (c : Cartel) : ℚ :=
  if c.sobre_nivel_terreno then c.cf_sobre_nivel_terreno
  else c.cf_a_nivel_terreno

/-- Modelled from the spec: zonda/excepciones.py is not present under src/.
The spec requires "normative non-applicability errors" (ErrorLineamientos)
to be a distinguishable error kind from ordinary input-validation errors
(ValueError), so the two are distinct constructors. -/
inductive ErrorZonda
  | valueError
  | errorLineamientos
deriving DecidableEq

/-- Class CubiertaAislada from zonda/cirsoc/cp/aisladas.py (fields stored by
a successful constructor run). -/
structure CubiertaAislada where
  tipo_cubierta : TipoCubierta
  angulo : ℚ
  relacion_bloqueo : ℚ
  posicion_bloqueo : PosicionBloqueoCubierta
deriving DecidableEq

/-- CubiertaAislada.__init__ from zonda/cirsoc/cp/aisladas.py: the checks are
performed in source order (blockage-ratio validation first, then roof type,
then the per-type angle ranges); raising is modelled as Except.error. -/
def CubiertaAislada.init (tipo_cubierta : TipoCubierta) (angulo relacion_bloqueo : ℚ)
    (posicion_bloqueo : PosicionBloqueoCubierta) : Except ErrorZonda CubiertaAislada :=
  if ¬(0 ≤ relacion_bloqueo ∧ relacion_bloqueo ≤ 1) then
    Except.error ErrorZonda.valueError
  else if tipo_cubierta ≠ TipoCubierta.DOS_AGUAS ∧ tipo_cubierta ≠ TipoCubierta.UN_AGUA then
    Except.error ErrorZonda.errorLineamientos
  else if -5 < angulo ∧ angulo < 5 ∧ tipo_cubierta = TipoCubierta.DOS_AGUAS then
    Except.error ErrorZonda.errorLineamientos
  else if ¬(0 ≤ angulo ∧ angulo ≤ 30) ∧ tipo_cubierta = TipoCubierta.UN_AGUA then
    Except.error ErrorZonda.errorLineamientos
  else
    Except.ok ⟨tipo_cubierta, angulo, relacion_bloqueo, posicion_bloqueo⟩

/-- Step of the characteristic-height loop of array_alturas
(zonda/cirsoc/geometria/utils_alturas.py): append the height only if it is
not already present. -/
def paso_altura (acc : List ℚ) (altura : ℚ) : List ℚ :=
  if altura ∈ acc then acc else acc ++ [altura]

/-- Function array_alturas from zonda/cirsoc/geometria/utils_alturas.py.
With a custom list, keeps the custom heights inside
[altura_inferior, altura_superior]; otherwise takes the integers of
range(ceil(altura_inferior), ceil(altura_superior)).  The characteristic
heights (both bounds and the extra heights) are then appended when absent,
and the list is sorted ascending. -/
def array_alturas (altura_inferior altura_superior : ℚ)
    (alturas_personalizadas : Option (List ℚ)) (otras_alturas : List ℚ) : List ℚ :=
  let alturas : List ℚ :=
    match alturas_personalizadas with
    | some xs =>
      xs.filter (fun altura => decide (altura_inferior ≤ altura ∧ altura ≤ altura_superior))
    | none =>
      (List.range (⌈altura_superior⌉ - ⌈altura_inferior⌉).toNat).map
        (fun i : ℕ => ((⌈altura_inferior⌉ + (i : ℤ) : ℤ) : ℚ))
  let con_caracteristicas :=
    (altura_inferior :: altura_superior :: otras_alturas).foldl paso_altura alturas
  con_caracteristicas.insertionSort (· ≤ ·)

open scoped Classical

/-- Exposure-terrain constants tuple from sse102/cirsoc/factores.py
(namedtuple Constantes). -/
structure Constantes where
  alfa : ℝ
  zg : ℝ
  a_hat : ℝ
  b_hat : ℝ
  alpha_bar : ℝ
  b_bar : ℝ
  c : ℝ
  le : ℝ
  ep_bar : ℝ
  zmin : ℝ

/-- Dictionary _constantes_exposicion from sse102/cirsoc/factores.py. -/
noncomputable def constantes_exposicion : CategoriaExposicion → Constantes
  | CategoriaExposicion.A => ⟨5, 457, 1 / 5, 0.64, 1 / 3, 0.3, 0.45, 55, 1 / 2, 18.3⟩
  | CategoriaExposicion.B => ⟨7, 366, 1 / 7, 0.84, 1 / 4, 0.45, 0.3, 98, 1 / 3, 9.2⟩
  | CategoriaExposicion.C => ⟨9.5, 274, 1 / 9.5, 1, 1 / 6.5, 0.65, 0.2, 152, 1 / 5, 4.6⟩
  | CategoriaExposicion.D => ⟨11.5, 213, 1 / 11.5, 1.07, 1 / 9, 0.8, 0.15, 198, 1 / 8, 2.1⟩

/-- Class Rafaga from sse102/cirsoc/factores.py (constructor fields). -/
structure Rafaga where
  ancho : ℝ
  longitud : ℝ
  altura : ℝ
  altura_rafaga : ℝ
  velocidad : ℝ
  frecuencia : ℝ
  beta : ℝ
  flexibilidad : Flexibilidad
  factor_g_simplificado : Bool
  categoria_exp : CategoriaExposicion

/-- Parameter z of Rafaga.parametros: max(altura_rafaga, zmin). -/
noncomputable def Rafaga.z (r : Rafaga) : ℝ :=
  max r.altura_rafaga (constantes_exposicion r.categoria_exp).zmin

/-- Parameter iz of Rafaga.parametros: c * (10 / z) ** (1 / 6). -/
noncomputable def Rafaga.iz (r : Rafaga) : ℝ :=
  (constantes_exposicion r.categoria_exp).c * (10 / r.z) ^ ((1 : ℝ) / 6)

/-- Parameter lz of Rafaga.parametros: le * (z / 10) ** ep_bar. -/
noncomputable def Rafaga.lz (r : Rafaga) : ℝ :=
  (constantes_exposicion r.categoria_exp).le *
    (r.z / 10) ^ (constantes_exposicion r.categoria_exp).ep_bar

/-- Parameter gr of Rafaga.parametros (only used on the flexible branch):
(2 ln(3600 f)) ** 0.5 + 0.577 / (2 ln(3600 f)) ** 0.5. -/
noncomputable def Rafaga.gr (r : Rafaga) : ℝ :=
  Real.sqrt (2 * Real.log (3600 * r.frecuencia)) +
    0.577 / Real.sqrt (2 * Real.log (3600 * r.frecuencia))

/-- Intermediate vz of Rafaga.parametros: b_bar * (z / 10) ** alpha_bar * velocidad. -/
noncomputable def Rafaga.vz (r : Rafaga) : ℝ :=
  (constantes_exposicion r.categoria_exp).b_bar *
    (r.z / 10) ^ (constantes_exposicion r.categoria_exp).alpha_bar * r.velocidad

/-- Resonance term Ri of Rafaga.parametros:
1 / j - (1 - e^(-2 j)) / (2 j^2) when j > 0, and 1 otherwise. -/
noncomputable def Rafaga.ri (j : ℝ) : ℝ :=
  if j > 0 then 1 / j - (1 - Real.exp (-2 * j)) / (2 * j ^ 2) else 1

/-- Parameter r of Rafaga.parametros (only used on the flexible branch),
combining rn and the three resonance terms. -/
noncomputable def Rafaga.factor_r (r : Rafaga) : ℝ :=
  Real.sqrt
    ((7.47 * (r.frecuencia * r.lz / r.vz) /
        (1 + 10.3 * (r.frecuencia * r.lz / r.vz)) ^ ((5 : ℝ) / 3)) *
      Rafaga.ri (4.6 * r.frecuencia * r.altura / r.vz) *
      Rafaga.ri (4.6 * r.frecuencia * r.ancho / r.vz) *
      (0.53 + 0.47 * Rafaga.ri (15.4 * r.frecuencia * r.longitud / r.vz)) / r.beta)

/-- Rafaga.factor_q: background response factor
(1 / (1 + 0.63 * ((longitud + altura) / lz) ** 0.63)) ** 0.5. -/
noncomputable def Rafaga.factor_q (r : Rafaga) : ℝ :=
  Real.sqrt (1 / (1 + 0.63 * ((r.longitud + r.altura) / r.lz) ^ ((0.63 : ℝ))))

/-- Rafaga._rigida: gust factor of a rigid structure. -/
noncomputable def Rafaga.rigida (r : Rafaga) : ℝ :=
  (1 + 1.7 * 3.4 * r.iz * r.factor_q) / (1 + 1.7 * 3.4 * r.iz) * 0.925

/-- Rafaga._flexible: gust factor of a flexible structure. -/
noncomputable def Rafaga.flexible (r : Rafaga) : ℝ :=
  (1 + 1.7 * r.iz * Real.sqrt ((3.4 * r.factor_q) ^ 2 + (r.gr * r.factor_r) ^ 2)) /
    (1 + 1.7 * 3.4 * r.iz) * 0.925

/-- Rafaga.factor: 0.85 when factor_g_simplificado is set, otherwise the
flexible or rigid formula according to the flexibility classification. -/
noncomputable def Rafaga.factor (r : Rafaga) : ℝ :=
  if r.factor_g_simplificado then 0.85
  else if r.flexibilidad = Flexibilidad.FLEXIBLE then r.flexible
  else r.rigida

/-- Class Topografia from sse102/cirsoc/factores.py (constructor fields);
alturas is modelled as the array case (a list of heights). -/
structure Topografia where
  categoria_exp : CategoriaExposicion
  considerar_topografia : Bool
  tipo_terreno : TipoTerrenoTopografia
  altura_terreno : ℝ
  distancia_cresta : ℝ
  distancia_barlovento_sotavento : ℝ
  direccion : DireccionTopografia
  alturas : List ℝ

/-- Topografia.topografia_considerada: the applicability gate. -/
def Topografia.topografia_considerada (t : Topografia) : Prop :=
  t.considerar_topografia = true ∧
    t.altura_terreno / t.distancia_cresta ≥ 0.2 ∧
    (((t.categoria_exp = CategoriaExposicion.A ∨ t.categoria_exp = CategoriaExposicion.B) ∧
        t.altura_terreno > 20) ∨
      ((t.categoria_exp = CategoriaExposicion.C ∨ t.categoria_exp = CategoriaExposicion.D) ∧
        t.altura_terreno > 5))

/-- Entry factor_k of param_topo_vel in Topografia.parametros. -/
def param_factor_k : TipoTerrenoTopografia → CategoriaExposicion → ℝ
  | TipoTerrenoTopografia.LOMA_BIDIMENSIONAL, CategoriaExposicion.A => 1.3
  | TipoTerrenoTopografia.LOMA_BIDIMENSIONAL, CategoriaExposicion.B => 1.3
  | TipoTerrenoTopografia.LOMA_BIDIMENSIONAL, CategoriaExposicion.C => 1.45
  | TipoTerrenoTopografia.LOMA_BIDIMENSIONAL, CategoriaExposicion.D => 1.55
  | TipoTerrenoTopografia.ESCARPA_BIDIMENSIONAL, CategoriaExposicion.A => 0.75
  | TipoTerrenoTopografia.ESCARPA_BIDIMENSIONAL, CategoriaExposicion.B => 0.75
  | TipoTerrenoTopografia.ESCARPA_BIDIMENSIONAL, CategoriaExposicion.C => 0.85
  | TipoTerrenoTopografia.ESCARPA_BIDIMENSIONAL, CategoriaExposicion.D => 0.95
  | TipoTerrenoTopografia.COLINA_TRIDIMENSIONAL, CategoriaExposicion.A => 0.95
  | TipoTerrenoTopografia.COLINA_TRIDIMENSIONAL, CategoriaExposicion.B => 0.95
  | TipoTerrenoTopografia.COLINA_TRIDIMENSIONAL, CategoriaExposicion.C => 1.05
  | TipoTerrenoTopografia.COLINA_TRIDIMENSIONAL, CategoriaExposicion.D => 1.15

/-- Entry gamma of param_topo_vel in Topografia.parametros. -/
def param_gamma : TipoTerrenoTopografia → ℝ
  | TipoTerrenoTopografia.LOMA_BIDIMENSIONAL => 3.0
  | TipoTerrenoTopografia.ESCARPA_BIDIMENSIONAL => 2.5
  | TipoTerrenoTopografia.COLINA_TRIDIMENSIONAL => 4.0

/-- Entry mu of param_topo_vel in Topografia.parametros. -/
def param_mu : TipoTerrenoTopografia → DireccionTopografia → ℝ
  | TipoTerrenoTopografia.LOMA_BIDIMENSIONAL, _ => 1.5
  | TipoTerrenoTopografia.ESCARPA_BIDIMENSIONAL, DireccionTopografia.BARLOVENTO => 1.5
  | TipoTerrenoTopografia.ESCARPA_BIDIMENSIONAL, DireccionTopografia.SOTAVENTO => 4.0
  | TipoTerrenoTopografia.COLINA_TRIDIMENSIONAL, _ => 1.5

/-- Scalar parameters of Topografia.parametros (the per-height array k3 is
computed inside Topografia.factor, pointwise). -/
structure ParametrosTopograficos where
  factor_k : ℝ
  gamma : ℝ
  mu : ℝ
  lh : ℝ
  k1 : ℝ
  k2 : ℝ

/-- Topografia.parametros: Lh = max(distancia_cresta, 2 * altura_terreno),
K1 = k * altura_terreno / Lh, K2 = 1 - distancia_barlovento_sotavento / mu / Lh. -/
noncomputable def Topografia.parametros (t : Topografia) : ParametrosTopograficos :=
  let lh := max t.distancia_cresta (2 * t.altura_terreno)
  let k_factor := param_factor_k t.tipo_terreno t.categoria_exp
  let gamma := param_gamma t.tipo_terreno
  let mu := param_mu t.tipo_terreno t.direccion
  ⟨k_factor, gamma, mu, lh, k_factor * t.altura_terreno / lh,
    1 - t.distancia_barlovento_sotavento / mu / lh⟩

/-- Topografia.factor: all ones when the applicability gate fails, otherwise
(1 + K1 K2 K3(z))^2 per height with K3(z) = e^(-gamma z / Lh). -/
noncomputable def Topografia.factor (t : Topografia) : List ℝ :=
  if t.topografia_considerada then
    t.alturas.map (fun z =>
      (1 + t.parametros.k1 * t.parametros.k2 *
        Real.exp (-1 * t.parametros.gamma * z / t.parametros.lh)) ^ 2)
  else
    t.alturas.map (fun _ => 1)

/-- Function presion_minima from sse102/cirsoc/presiones/edificio.py:
np.sign(presion) * max(500, abs(presion)). -/
noncomputable def presion_minima (presion : ℝ) : ℝ :=
  Real.sign presion * max 500 |presion|

/-- NamedTuple PresionesEdificio from sse102/cirsoc/presiones/edificio.py. -/
structure PresionesEdificio where
  pos : ℝ
  neg : ℝ

/-- Static method CubiertaSprfvMetodoDireccional._presiones from
sse102/cirsoc/presiones/edificio.py: q1 = presion_velocidad * factor_rafaga * cp,
q2 = presion_velocidad_media * gcpi, result (q1 - q2, q1 + q2), both floored
by presion_minima when considerar_presion_minima is set. -/
noncomputable def presiones_zona (presion_velocidad cp factor_rafaga presion_velocidad_media gcpi : ℝ)
    (considerar_presion_minima : Bool) : PresionesEdificio :=
  let q1 := presion_velocidad * factor_rafaga * cp
  let q2 := presion_velocidad_media * gcpi
  let q_pos := q1 - q2
  let q_neg := q1 + q2
  if considerar_presion_minima then ⟨presion_minima q_pos, presion_minima q_neg⟩
  else ⟨q_pos, q_neg⟩

/-- CubiertaSprfvMetodoDireccional.factor_reduccion_gcpi from
sse102/cirsoc/presiones/edificio.py.  The reduction is computed only when
reduction is requested, the building is partially enclosed, the internal
volume is supplied and the total opening area is truthy (not None and not
zero); the value is min(0.5 (1 + 1 / (1 + V / 6954 / A)^0.5), 1). -/
noncomputable def factor_reduccion_gcpi (reducir_gcpi : Bool) (cerramiento : Cerramiento)
    (volumen_interno aberturas_totales : Option ℝ) : ℝ :=
  if reducir_gcpi then
    if cerramiento = Cerramiento.PARCIALMENTE_CERRADO then
      match volumen_interno, aberturas_totales with
      | some v, some a =>
        if a ≠ 0 then
          min (0.5 * (1 + 1 / Real.sqrt (1 + v / 6954 / a))) 1
        else 1
      | _, _ => 1
    else 1
  else 1

/-- Fixed enclosure table cerramiento_gcpi inside
CubiertaSprfvMetodoDireccional.gcpi. -/
def cerramiento_gcpi : Cerramiento → ℝ
  | Cerramiento.CERRADO => 0.18
  | Cerramiento.PARCIALMENTE_CERRADO => 0.55
  | Cerramiento.ABIERTO => 0.0

/-- CubiertaSprfvMetodoDireccional.gcpi: enclosure table value times the
reduction factor. -/
noncomputable def gcpi (reducir_gcpi : Bool) (cerramiento : Cerramiento)
    (volumen_interno aberturas_totales : Option ℝ) : ℝ :=
  cerramiento_gcpi cerramiento *
    factor_reduccion_gcpi reducir_gcpi cerramiento volumen_interno aberturas_totales

/-- math.log10, as used by calcular_cp_componente. -/
noncomputable def log10 (x : ℝ) : ℝ :=
  Real.log x / Real.log 10

/-- Function calcular_cp_componente from zonda/cirsoc/cp/edificio.py:
clamps at the two tabulated areas and otherwise interpolates
logarithmically in the tributary area. -/
noncomputable def calcular_cp_componente (cps areas : ℝ × ℝ) (area_componente : ℝ) : ℝ :=
  if area_componente ≤ areas.1 then cps.1
  else if area_componente ≥ areas.2 then cps.2
  else cps.1 + (cps.2 - cps.1) / log10 (areas.2 / areas.1) * log10 (area_componente / areas.1)

/-- Class Cubierta from zonda/cirsoc/geometria/cubiertas.py (constructor
fields; altura_cumbrera_arg is the raw constructor argument). -/
structure Cubierta where
  ancho : ℝ
  longitud : ℝ
  altura_alero : ℝ
  altura_cumbrera_arg : ℝ
  tipo_cubierta : TipoCubierta
  parapeto : ℝ
  alero : ℝ
  altura_bloqueo : ℝ
  posicion_bloqueo : PosicionBloqueoCubierta

/-- Field altura_cumbrera as assigned by Cubierta.__init__: for a flat roof
it is overwritten by altura_alero. -/
def Cubierta.altura_cumbrera (c : Cubierta) : ℝ :=
  if c.tipo_cubierta = TipoCubierta.PLANA then c.altura_alero else c.altura_cumbrera_arg

/-- Cubierta.angulo: degrees(atan(pendiente)), with the slope
(altura_cumbrera - altura_alero) / ancho doubled for a duo-pitch roof. -/
noncomputable def Cubierta.angulo (c : Cubierta) : ℝ :=
  Real.arctan ((c.altura_cumbrera - c.altura_alero) / c.ancho *
      (if c.tipo_cubierta = TipoCubierta.DOS_AGUAS then 2 else 1)) * 180 / Real.pi

/-- Cubierta.altura_media: the eave height when the slope angle is at most
10 degrees, otherwise the average of eave and ridge heights. -/
noncomputable def Cubierta.altura_media (c : Cubierta) : ℝ :=
  if c.angulo ≤ 10 then c.altura_alero
  else (c.altura_alero + c.altura_cumbrera) / 2

/-- Helper: the gcpi reduction factor never exceeds 1. -/
theorem factor_reduccion_gcpi_le_one (reducir : Bool) (cerramiento : Cerramiento)
    (volumen_interno aberturas_totales : Option ℝ) :
    factor_reduccion_gcpi reducir cerramiento volumen_interno aberturas_totales ≤ 1 := by
  unfold factor_reduccion_gcpi
  repeat' split
  all_goals first
  | exact min_le_right _ _
  | exact le_refl 1

/-- Helper: the gcpi reduction factor is 1 unless the building is partially
enclosed and reduction is requested. -/
theorem factor_reduccion_gcpi_eq_one (reducir : Bool) (cerramiento : Cerramiento)
    (volumen_interno aberturas_totales : Option ℝ)
    (h : cerramiento ≠ Cerramiento.PARCIALMENTE_CERRADO ∨ reducir = false) :
    factor_reduccion_gcpi reducir cerramiento volumen_interno aberturas_totales = 1 := by
  unfold factor_reduccion_gcpi
  rcases h with h | h
  · cases reducir <;> simp [h]
  · simp [h]

/-- C1: with the minimum-pressure flag off, a building zone pressure is the
pair (q - qh GCpi, q + qh GCpi) with q = qz G Cp; GCpi is the fixed
enclosure-table value (0.18 closed, 0.55 partially closed, 0 open) times a
reduction factor that never exceeds 1 and differs from 1 only for
partially-enclosed buildings when reduction is requested. -/
theorem presiones_gcpi_edificio :
    (∀ pv cp fr pvm g, presiones_zona pv cp fr pvm g false =
      ⟨pv * fr * cp - pvm * g, pv * fr * cp + pvm * g⟩) ∧
    (cerramiento_gcpi Cerramiento.CERRADO = 0.18 ∧
      cerramiento_gcpi Cerramiento.PARCIALMENTE_CERRADO = 0.55 ∧
      cerramiento_gcpi Cerramiento.ABIERTO = 0) ∧
    (∀ reducir cerramiento volumen aberturas,
      gcpi reducir cerramiento volumen aberturas =
        cerramiento_gcpi cerramiento *
          factor_reduccion_gcpi reducir cerramiento volumen aberturas ∧
      factor_reduccion_gcpi reducir cerramiento volumen aberturas ≤ 1 ∧
      ((cerramiento ≠ Cerramiento.PARCIALMENTE_CERRADO ∨ reducir = false) →
        factor_reduccion_gcpi reducir cerramiento volumen aberturas = 1)) :=
  ⟨fun _ _ _ _ _ => rfl, ⟨rfl, rfl, by norm_num [cerramiento_gcpi]⟩,
    fun reducir cerramiento volumen aberturas =>
      ⟨rfl, factor_reduccion_gcpi_le_one reducir cerramiento volumen aberturas,
        factor_reduccion_gcpi_eq_one reducir cerramiento volumen aberturas⟩⟩

/-- Witness for C1 at a concrete input. -/
theorem presiones_gcpi_edificio_witness :
    factor_reduccion_gcpi false Cerramiento.CERRADO none none = 1 :=
  (presiones_gcpi_edificio.2.2 false Cerramiento.CERRADO none none).2.2 (Or.inr rfl)

/-- C5: the gust factor of any instance constructed with the simplified flag
is exactly 0.85, whatever the remaining inputs. -/
theorem rafaga_factor_simplificado (r : Rafaga) (h : r.factor_g_simplificado = true) :
    r.factor = 0.85 := by
  unfold Rafaga.factor
  rw [h]
  simp

/-- Witness for C5: a concrete flexible instance with the simplified flag. -/
theorem rafaga_factor_simplificado_witness :
    Rafaga.factor ⟨1, 2, 3, 4, 5, 6, 7, Flexibilidad.FLEXIBLE, true, CategoriaExposicion.A⟩ =
      0.85 :=
  rafaga_factor_simplificado _ rfl

/-- C10: the gcpi reduction never divides by the opening area when that area
is zero or missing, or when the internal volume is missing: the factor is
exactly 1 on those inputs (code branches away before the division). -/
theorem factor_reduccion_gcpi_sin_division (volumen_interno aberturas_totales : Option ℝ)
    (h : aberturas_totales = none ∨ aberturas_totales = some 0 ∨ volumen_interno = none) :
    factor_reduccion_gcpi true Cerramiento.PARCIALMENTE_CERRADO
      volumen_interno aberturas_totales = 1 := by
  unfold factor_reduccion_gcpi
  rcases h with h | h | h
  · subst h
    cases volumen_interno <;> simp
  · subst h
    cases volumen_interno <;> simp
  · subst h
    cases aberturas_totales <;> simp

/-- Witness for C10: internal volume supplied, zero total opening area. -/
theorem factor_reduccion_gcpi_sin_division_witness :
    factor_reduccion_gcpi true Cerramiento.PARCIALMENTE_CERRADO (some 100) (some 0) = 1 :=
  factor_reduccion_gcpi_sin_division (some 100) (some 0) (Or.inr (Or.inl rfl))

/-- C4: with a valid blockage ratio, the isolated-roof constructor raises the
normative non-applicability error for a duo-pitch roof with angle strictly
inside (-5, 5) and for a mono-pitch roof with angle outside [0, 30]; it
succeeds for a duo-pitch roof at 6 degrees; a blockage ratio outside [0, 1]
raises the validation error, a different error kind. -/
theorem cubierta_aislada_errores (rb : ℚ) (h0 : 0 ≤ rb) (h1 : rb ≤ 1) :
    (∀ angulo posicion, -5 < angulo → angulo < 5 →
      CubiertaAislada.init TipoCubierta.DOS_AGUAS angulo rb posicion =
        Except.error ErrorZonda.errorLineamientos) ∧
    (∀ angulo posicion, ¬(0 ≤ angulo ∧ angulo ≤ 30) →
      CubiertaAislada.init TipoCubierta.UN_AGUA angulo rb posicion =
        Except.error ErrorZonda.errorLineamientos) ∧
    (∀ posicion, CubiertaAislada.init TipoCubierta.DOS_AGUAS 6 rb posicion =
      Except.ok ⟨TipoCubierta.DOS_AGUAS, 6, rb, posicion⟩) ∧
    (∀ tipo angulo rb2 posicion, ¬(0 ≤ rb2 ∧ rb2 ≤ 1) →
      CubiertaAislada.init tipo angulo rb2 posicion = Except.error ErrorZonda.valueError) ∧
    ErrorZonda.errorLineamientos ≠ ErrorZonda.valueError := by
  refine ⟨?_, ?_, ?_, ?_, by decide⟩
  · intro angulo posicion ha hb
    unfold CubiertaAislada.init
    rw [if_neg (by simp [h0, h1]), if_neg (by simp), if_pos ⟨ha, hb, rfl⟩]
  · intro angulo posicion h
    unfold CubiertaAislada.init
    rw [if_neg (by simp [h0, h1]), if_neg (by simp), if_neg (by simp),
      if_pos ⟨h, rfl⟩]
  · intro posicion
    unfold CubiertaAislada.init
    rw [if_neg (by simp [h0, h1]), if_neg (by simp), if_neg (by norm_num),
      if_neg (by simp)]
  · intro tipo angulo rb2 posicion h
    unfold CubiertaAislada.init
    rw [if_pos h]

/-- Witness for C4: duo-pitch roof at angle 0 with blockage ratio 1/2. -/
theorem cubierta_aislada_errores_witness :
    CubiertaAislada.init TipoCubierta.DOS_AGUAS 0 (1 / 2)
      PosicionBloqueoCubierta.ALERO_BAJO = Except.error ErrorZonda.errorLineamientos :=
  (cubierta_aislada_errores (1 / 2) (by norm_num) (by norm_num)).1 0
    PosicionBloqueoCubierta.ALERO_BAJO (by norm_num) (by norm_num)

/-- C3: the component coefficient interpolation clamps to the first
coefficient at or below the first tabulated area, to the last coefficient at
or above the last one, and otherwise interpolates logarithmically. -/
theorem calcular_cp_componente_correcto (cp1 cp2 A1 A2 a : ℝ)
    (h1 : 0 < A1) (h2 : A1 < A2) :
    (a ≤ A1 → calcular_cp_componente (cp1, cp2) (A1, A2) a = cp1) ∧
    (a ≥ A2 → calcular_cp_componente (cp1, cp2) (A1, A2) a = cp2) ∧
    (A1 < a → a < A2 → calcular_cp_componente (cp1, cp2) (A1, A2) a =
      cp1 + (cp2 - cp1) / log10 (A2 / A1) * log10 (a / A1)) := by
  refine ⟨fun h => ?_, fun h => ?_, fun ha hb => ?_⟩
  · unfold calcular_cp_componente
    rw [if_pos h]
  · unfold calcular_cp_componente
    rw [if_neg (by simp only [not_le]; linarith), if_pos h]
  · unfold calcular_cp_componente
    rw [if_neg (by simp only [not_le]; linarith),
      if_neg (by simp only [ge_iff_le, not_le]; linarith)]

/-- Witness for C3 at areas (1, 100) and component area 10. -/
theorem calcular_cp_componente_correcto_witness :
    ((10 : ℝ) ≤ 1 → calcular_cp_componente (0.5, 0.9) (1, 100) 10 = 0.5) ∧
    ((10 : ℝ) ≥ 100 → calcular_cp_componente (0.5, 0.9) (1, 100) 10 = 0.9) ∧
    ((1 : ℝ) < 10 → (10 : ℝ) < 100 → calcular_cp_componente (0.5, 0.9) (1, 100) 10 =
      0.5 + (0.9 - 0.5) / log10 (100 / 1) * log10 (10 / 1)) :=
  calcular_cp_componente_correcto 0.5 0.9 1 100 10 (by norm_num) (by norm_num)

/-- Counterexample for C6: at pressure 0 the floored value is 0, whose
magnitude is not max(500, |0|) = 500, so the claimed magnitude law fails for
every real p. -/
theorem presion_minima_cero_contraejemplo :
    presion_minima 0 = 0 ∧ max (500 : ℝ) |(0 : ℝ)| = 500 ∧ (0 : ℝ) ≠ 500 := by
  refine ⟨?_, by norm_num, by norm_num⟩
  simp [presion_minima]

/-- C6 amended: components-and-cladding pressures are the minimum-pressure
floor of the unfloored pair, and for every nonzero p the floor preserves the
sign of p and has magnitude max(500, |p|); at p = 0 the result is 0. -/
theorem presion_minima_correcta :
    (∀ pv cp fr pvm g, presiones_zona pv cp fr pvm g true =
      ⟨presion_minima (pv * fr * cp - pvm * g),
        presion_minima (pv * fr * cp + pvm * g)⟩) ∧
    (∀ p : ℝ, p ≠ 0 →
      Real.sign (presion_minima p) = Real.sign p ∧
      |presion_minima p| = max 500 |p|) ∧
    presion_minima 0 = 0 := by
  refine ⟨fun _ _ _ _ _ => rfl, fun p hp => ?_, by simp [presion_minima]⟩
  have hmax : (0 : ℝ) < max 500 |p| := lt_max_of_lt_left (by norm_num)
  rcases lt_or_gt_of_ne hp with h | h
  · have hs : Real.sign p = -1 := Real.sign_of_neg h
    have hv : presion_minima p = -(max 500 |p|) := by
      rw [presion_minima, hs]
      ring
    constructor
    · rw [hv, hs, Real.sign_of_neg (by linarith)]
    · rw [hv, abs_neg, abs_of_pos hmax]
  · have hs : Real.sign p = 1 := Real.sign_of_pos h
    have hv : presion_minima p = max 500 |p| := by
      rw [presion_minima, hs]
      ring
    constructor
    · rw [hv, hs, Real.sign_of_pos hmax]
    · rw [hv, abs_of_pos hmax]

/-- Witness for C6 amended at p = -3. -/
theorem presion_minima_correcta_witness :
    Real.sign (presion_minima (-3)) = Real.sign (-3 : ℝ) ∧
    |presion_minima (-3 : ℝ)| = max 500 |(-3 : ℝ)| :=
  presion_minima_correcta.2.1 (-3) (by norm_num)

/-- Helper: the ground-level sign table only produces values in [1.2, 2]. -/
theorem interp_tabla_a_nivel_acotado (x : ℚ) :
    1.2 ≤ interp x tabla_cf_a_nivel_terreno ∧ interp x tabla_cf_a_nivel_terreno ≤ 2 := by
  simp only [tabla_cf_a_nivel_terreno, interp]
  split_ifs <;> constructor <;> linarith

/-- Helper: the elevated sign table only produces values in [1.2, 2]. -/
theorem interp_tabla_sobre_nivel_acotado (x : ℚ) :
    1.2 ≤ interp x tabla_cf_sobre_nivel_terreno ∧
      interp x tabla_cf_sobre_nivel_terreno ≤ 2 := by
  simp only [tabla_cf_sobre_nivel_terreno, interp]
  split_ifs <;> constructor <;> linarith

/-- Counterexample for C7: for a ground-level sign of net height 2 and width
40 the code interpolates h / w = 1/20 (clamping to 1.2), not the claimed
aspect ratio max(h, w) / min(h, w) = 20, which on the same table gives 1.75. -/
theorem cartel_cf_contraejemplo :
    Cartel.cf ⟨0, 2, 40, false⟩ = 1.2 ∧
    interp (max (2 : ℚ) 40 / min (2 : ℚ) 40) tabla_cf_a_nivel_terreno = 1.75 ∧
    (1.2 : ℚ) ≠ 1.75 := by
  refine ⟨?_, ?_, by norm_num⟩
  · norm_num [Cartel.cf, Cartel.sobre_nivel_terreno, Cartel.cf_a_nivel_terreno,
      interp, tabla_cf_a_nivel_terreno]
  · norm_num [interp, tabla_cf_a_nivel_terreno]

/-- C7 amended: for a non-parapet sign the force coefficient is interpolated
on max(h, w) / min(h, w) from the elevated table when the lower height is at
least 25% of the net height, and on h / w from the ground-level table
otherwise; the result always lies within the table bounds [1.2, 2]; in
particular a sign of net height 10 and width 5 at ground level takes the
ground-level table (ratio 2, clamped to 1.2). -/
theorem cartel_cf_correcto (hi hn w : ℚ) :
    (0.25 * hn ≤ hi → Cartel.cf ⟨hi, hn, w, false⟩ =
      interp (max hn w / min hn w) tabla_cf_sobre_nivel_terreno) ∧
    (hi < 0.25 * hn → Cartel.cf ⟨hi, hn, w, false⟩ =
      interp (hn / w) tabla_cf_a_nivel_terreno) ∧
    (1.2 ≤ Cartel.cf ⟨hi, hn, w, false⟩ ∧ Cartel.cf ⟨hi, hn, w, false⟩ ≤ 2) ∧
    Cartel.cf ⟨0, 10, 5, false⟩ = 1.2 := by
  refine ⟨fun h => ?_, fun h => ?_, ?_, ?_⟩
  · have hs : Cartel.sobre_nivel_terreno ⟨hi, hn, w, false⟩ = true := by
      simp only [Cartel.sobre_nivel_terreno]
      rw [if_neg]
      simp only [Bool.false_eq_true, or_false, not_lt]
      exact h
    simp [Cartel.cf, hs, Cartel.cf_sobre_nivel_terreno]
  · have hs : Cartel.sobre_nivel_terreno ⟨hi, hn, w, false⟩ = false := by
      simp only [Cartel.sobre_nivel_terreno]
      rw [if_pos]
      exact Or.inl h
    simp [Cartel.cf, hs, Cartel.cf_a_nivel_terreno]
  · have h1 := interp_tabla_a_nivel_acotado (hn / w)
    have h2 := interp_tabla_sobre_nivel_acotado (max hn w / min hn w)
    unfold Cartel.cf Cartel.cf_sobre_nivel_terreno Cartel.cf_a_nivel_terreno
    split_ifs
    · exact h2
    · exact h1
  · norm_num [Cartel.cf, Cartel.sobre_nivel_terreno, Cartel.cf_a_nivel_terreno,
      interp, tabla_cf_a_nivel_terreno]

/-- Witness for C7 amended: an elevated sign (lower height 3 ≥ 0.25 * 10). -/
theorem cartel_cf_correcto_witness :
    Cartel.cf ⟨3, 10, 5, false⟩ =
      interp (max (10 : ℚ) 5 / min (10 : ℚ) 5) tabla_cf_sobre_nivel_terreno :=
  (cartel_cf_correcto 3 10 5).1 (by norm_num)

/-- Helper: membership in the characteristic-height fold. -/
theorem paso_altura_foldl_mem (cs : List ℚ) (acc : List ℚ) (x : ℚ) :
    x ∈ cs.foldl paso_altura acc ↔ x ∈ acc ∨ x ∈ cs := by
  induction cs generalizing acc with
  | nil => simp
  | cons c cs ih =>
    rw [List.foldl_cons, ih]
    unfold paso_altura
    split_ifs with h
    · simp only [List.mem_cons]
      constructor
      · tauto
      · rintro (hx | rfl | hx) <;> tauto
    · simp only [List.mem_append, List.mem_singleton, List.mem_cons]
      tauto

/-- Helper: the characteristic-height fold preserves freedom from
duplicates. -/
theorem paso_altura_foldl_nodup (cs : List ℚ) (acc : List ℚ) (h : acc.Nodup) :
    (cs.foldl paso_altura acc).Nodup := by
  induction cs generalizing acc with
  | nil => exact h
  | cons c cs ih =>
    rw [List.foldl_cons]
    apply ih
    unfold paso_altura
    split_ifs with hc
    · exact h
    · exact h.append (List.nodup_singleton c) (by simpa using hc)

/-- Counterexample for C9: with the duplicated custom heights [5, 5] the
returned array keeps the duplicate, so it is not strictly increasing. -/
theorem array_alturas_contraejemplo :
    array_alturas 0 10 (some [5, 5]) [] = [0, 5, 5, 10] ∧
    ¬ List.Sorted (· < ·) (array_alturas 0 10 (some [5, 5]) []) := by
  have hv : array_alturas 0 10 (some [5, 5]) [] = [0, 5, 5, 10] := by
    norm_num [array_alturas, paso_altura, List.insertionSort, List.orderedInsert]
  refine ⟨hv, ?_⟩
  rw [hv]
  norm_num [List.sorted_cons]

/-- Helper: sortedness and membership of the sorted fold at the heart of
array_alturas, for any duplicate-free starting list. -/
theorem array_alturas_nucleo (base cs : List ℚ) (hb : base.Nodup) :
    List.Sorted (· < ·) ((cs.foldl paso_altura base).insertionSort (· ≤ ·)) ∧
    (∀ x : ℚ, x ∈ (cs.foldl paso_altura base).insertionSort (· ≤ ·) ↔
      x ∈ base ∨ x ∈ cs) := by
  have hperm := List.perm_insertionSort (fun a b : ℚ => a ≤ b) (cs.foldl paso_altura base)
  constructor
  · refine List.Sorted.lt_of_le (List.sorted_insertionSort _ _) ?_
    exact hperm.nodup_iff.mpr (paso_altura_foldl_nodup cs base hb)
  · intro x
    rw [hperm.mem_iff, paso_altura_foldl_mem]

/-- C9 amended: when the supplied custom heights are pairwise distinct the
height array is strictly increasing; it always contains the lower bound, the
upper bound and every extra characteristic height, and in the custom case
every entry is either within [lower, upper] or one of the characteristic
heights, so out-of-range custom heights are excluded. -/
theorem array_alturas_correcto (ai as : ℚ) (pers : Option (List ℚ)) (otras : List ℚ)
    (hnd : ∀ xs, pers = some xs → xs.Nodup) :
    List.Sorted (· < ·) (array_alturas ai as pers otras) ∧
    ai ∈ array_alturas ai as pers otras ∧
    as ∈ array_alturas ai as pers otras ∧
    (∀ o ∈ otras, o ∈ array_alturas ai as pers otras) ∧
    (∀ xs, pers = some xs → ∀ a ∈ array_alturas ai as pers otras,
      (ai ≤ a ∧ a ≤ as) ∨ a = ai ∨ a = as ∨ a ∈ otras) := by
  cases pers with
  | none =>
    have hbn : ((List.range (⌈as⌉ - ⌈ai⌉).toNat).map
        (fun i : ℕ => ((⌈ai⌉ + (i : ℤ) : ℤ) : ℚ))).Nodup := by
      refine List.Nodup.map ?_ (List.nodup_range _)
      intro a b hab
      simpa using hab
    have h := array_alturas_nucleo
      ((List.range (⌈as⌉ - ⌈ai⌉).toNat).map (fun i : ℕ => ((⌈ai⌉ + (i : ℤ) : ℤ) : ℚ)))
      (ai :: as :: otras) hbn
    have harr : array_alturas ai as none otras =
        (((ai :: as :: otras).foldl paso_altura
          ((List.range (⌈as⌉ - ⌈ai⌉).toNat).map
            (fun i : ℕ => ((⌈ai⌉ + (i : ℤ) : ℤ) : ℚ))))).insertionSort (· ≤ ·) := rfl
    rw [harr]
    refine ⟨h.1, ?_, ?_, ?_, ?_⟩
    · exact (h.2 ai).mpr (Or.inr (List.mem_cons_self ai _))
    · exact (h.2 as).mpr (Or.inr (List.mem_cons_of_mem _ (List.mem_cons_self as _)))
    · intro o ho
      exact (h.2 o).mpr (Or.inr (List.mem_cons_of_mem _ (List.mem_cons_of_mem _ ho)))
    · intro xs hxs
      exact absurd hxs (by simp)
  | some xs =>
    have hxnd : xs.Nodup := hnd xs rfl
    have hbn : (xs.filter (fun a => decide (ai ≤ a ∧ a ≤ as))).Nodup := hxnd.filter _
    have h := array_alturas_nucleo (xs.filter (fun a => decide (ai ≤ a ∧ a ≤ as)))
      (ai :: as :: otras) hbn
    have harr : array_alturas ai as (some xs) otras =
        (((ai :: as :: otras).foldl paso_altura
          (xs.filter (fun a => decide (ai ≤ a ∧ a ≤ as))))).insertionSort (· ≤ ·) := rfl
    rw [harr]
    refine ⟨h.1, ?_, ?_, ?_, ?_⟩
    · exact (h.2 ai).mpr (Or.inr (List.mem_cons_self ai _))
    · exact (h.2 as).mpr (Or.inr (List.mem_cons_of_mem _ (List.mem_cons_self as _)))
    · intro o ho
      exact (h.2 o).mpr (Or.inr (List.mem_cons_of_mem _ (List.mem_cons_of_mem _ ho)))
    · intro ys hys a ha
      rcases (h.2 a).mp ha with hb | hb
      · left
        have := List.of_mem_filter hb
        simpa using this
      · simp only [List.mem_cons] at hb
        rcases hb with hb | hb | hb
        · exact Or.inr (Or.inl hb)
        · exact Or.inr (Or.inr (Or.inl hb))
        · exact Or.inr (Or.inr (Or.inr hb))

/-- Witness for C9 amended, with distinct custom heights [2, 7] and an extra
characteristic height 3. -/
theorem array_alturas_correcto_witness :
    List.Sorted (· < ·) (array_alturas 0 10 (some [2, 7]) [3]) ∧
    (0 : ℚ) ∈ array_alturas 0 10 (some [2, 7]) [3] ∧
    (10 : ℚ) ∈ array_alturas 0 10 (some [2, 7]) [3] ∧
    (∀ o ∈ ([3] : List ℚ), o ∈ array_alturas 0 10 (some [2, 7]) [3]) ∧
    (∀ xs, (some [2, 7] : Option (List ℚ)) = some xs →
      ∀ a ∈ array_alturas 0 10 (some [2, 7]) [3],
        ((0 : ℚ) ≤ a ∧ a ≤ 10) ∨ a = 0 ∨ a = 10 ∨ a ∈ ([3] : List ℚ)) :=
  array_alturas_correcto 0 10 (some [2, 7]) [3]
    (by intro xs h; injection h with h2; rw [← h2]; norm_num)

/-- Concrete topography inputs used to refute C2: exposure C escarpment of
height 10 at crest distance 10, evaluated 100 m windward of the crest at
height 0. -/
noncomputable def topografia_cx : Topografia :=
  ⟨CategoriaExposicion.C, true, TipoTerrenoTopografia.ESCARPA_BIDIMENSIONAL,
    10, 10, 100, DireccionTopografia.BARLOVENTO, [0]⟩

/-- Counterexample for C2: at a point far windward of the crest the factor
K2 = 1 - d / (mu Lh) is negative and the computed Kzt = (1/120)^2 is far
below 1, so Kzt is not ≥ 1 for every input. -/
theorem topografia_factor_contraejemplo :
    Topografia.factor topografia_cx = [((1 : ℝ) / 120) ^ 2] ∧
    ((1 : ℝ) / 120) ^ 2 < 1 := by
  constructor
  · unfold Topografia.factor
    rw [if_pos]
    · simp only [topografia_cx, Topografia.parametros, param_factor_k, param_gamma,
        param_mu, List.map]
      norm_num [Real.exp_zero]
    · refine ⟨rfl, by norm_num [topografia_cx], Or.inr ⟨Or.inl rfl, ?_⟩⟩
      norm_num [topografia_cx]
  · norm_num

/-- Helper: unfolded form of the lh parameter. -/
theorem topografia_lh_def (t : Topografia) :
    t.parametros.lh = max t.distancia_cresta (2 * t.altura_terreno) := rfl

/-- Helper: unfolded form of the k1 parameter. -/
theorem topografia_k1_def (t : Topografia) :
    t.parametros.k1 = param_factor_k t.tipo_terreno t.categoria_exp *
      t.altura_terreno / t.parametros.lh := rfl

/-- Helper: unfolded form of the k2 parameter. -/
theorem topografia_k2_def (t : Topografia) :
    t.parametros.k2 = 1 - t.distancia_barlovento_sotavento /
      t.parametros.mu / t.parametros.lh := rfl

/-- Helper: unfolded form of the mu parameter. -/
theorem topografia_mu_def (t : Topografia) :
    t.parametros.mu = param_mu t.tipo_terreno t.direccion := rfl

/-- C2 amended: every entry of the topographic factor is at least 1 whenever
the along-wind distance from the crest does not exceed mu * Lh (so that the
attenuation term K2 is nonnegative); without topography, or when the
applicability gate fails, every entry is exactly 1. -/
theorem topografia_factor_ge_one (t : Topografia)
    (h : t.distancia_barlovento_sotavento ≤ t.parametros.mu * t.parametros.lh) :
    ∀ x ∈ t.factor, 1 ≤ x := by
  intro x hx
  unfold Topografia.factor at hx
  by_cases hc : t.topografia_considerada
  · rw [if_pos hc] at hx
    obtain ⟨z, hz, rfl⟩ := List.mem_map.mp hx
    have hat : (5 : ℝ) < t.altura_terreno := by
      rcases hc.2.2 with ⟨_, h20⟩ | ⟨_, h5⟩
      · linarith
      · exact h5
    have hlh : (0 : ℝ) < t.parametros.lh := by
      rw [topografia_lh_def]
      have h2 : (2 : ℝ) * t.altura_terreno ≤ max t.distancia_cresta (2 * t.altura_terreno) :=
        le_max_right _ _
      linarith
    have hkf : (0 : ℝ) < param_factor_k t.tipo_terreno t.categoria_exp := by
      cases t.tipo_terreno <;> cases t.categoria_exp <;> norm_num [param_factor_k]
    have hmu : (0 : ℝ) < t.parametros.mu := by
      rw [topografia_mu_def]
      cases t.tipo_terreno <;> cases t.direccion <;> norm_num [param_mu]
    have hk1 : (0 : ℝ) ≤ t.parametros.k1 := by
      rw [topografia_k1_def]
      have := mul_pos hkf (by linarith : (0 : ℝ) < t.altura_terreno)
      positivity
    have hk2 : (0 : ℝ) ≤ t.parametros.k2 := by
      rw [topografia_k2_def, div_div]
      have hml : (0 : ℝ) < t.parametros.mu * t.parametros.lh := mul_pos hmu hlh
      have := (div_le_one hml).mpr h
      linarith
    have hk3 : (0 : ℝ) <
        Real.exp (-1 * t.parametros.gamma * z / t.parametros.lh) := Real.exp_pos _
    have hp : (0 : ℝ) ≤ t.parametros.k1 * t.parametros.k2 *
        Real.exp (-1 * t.parametros.gamma * z / t.parametros.lh) := by
      have := mul_nonneg hk1 hk2
      positivity
    nlinarith [hp]
  · rw [if_neg hc] at hx
    obtain ⟨z, hz, rfl⟩ := List.mem_map.mp hx
    exact le_refl 1

/-- Concrete topography inputs for the C2 witness: as topografia_cx but only
10 m windward of the crest, within mu * Lh = 30. -/
noncomputable def topografia_wit : Topografia :=
  ⟨CategoriaExposicion.C, true, TipoTerrenoTopografia.ESCARPA_BIDIMENSIONAL,
    10, 10, 10, DireccionTopografia.BARLOVENTO, [0, 3]⟩

/-- Witness for C2 amended at concrete inputs. -/
theorem topografia_factor_ge_one_witness :
    topografia_wit.distancia_barlovento_sotavento ≤
      topografia_wit.parametros.mu * topografia_wit.parametros.lh ∧
    ∀ x ∈ topografia_wit.factor, 1 ≤ x := by
  have hle : topografia_wit.distancia_barlovento_sotavento ≤
      topografia_wit.parametros.mu * topografia_wit.parametros.lh := by
    rw [topografia_mu_def, topografia_lh_def]
    norm_num [topografia_wit, param_mu]
  exact ⟨hle, topografia_factor_ge_one topografia_wit hle⟩

/-- Helper: the arctangent of 2/3 exceeds pi/18 (that is, 10 degrees). -/
theorem arctan_dos_tercios_gt : Real.pi / 18 < Real.arctan (2 / 3) := by
  have hpi := Real.pi_pos
  have htan : Real.tan (Real.pi / 18) < Real.tan (Real.pi / 6) :=
    Real.tan_lt_tan_of_nonneg_of_lt_pi_div_two (by positivity) (by linarith) (by linarith)
  have hsqrt : (3 : ℝ) / 2 < Real.sqrt 3 := by
    nlinarith [Real.sq_sqrt (by norm_num : (0 : ℝ) ≤ 3), Real.sqrt_nonneg 3]
  have hs3 : (1 : ℝ) / Real.sqrt 3 < 2 / 3 := by
    rw [div_lt_div_iff₀ (by positivity) (by norm_num)]
    linarith
  have h23 : Real.tan (Real.pi / 18) < 2 / 3 := by
    rw [Real.tan_pi_div_six] at htan
    linarith
  have := Real.arctan_strictMono h23
  rwa [Real.arctan_tan (by linarith) (by linarith)] at this

/-- C8: the mean roof height is the eave height when the slope angle is at
most 10 degrees and the eave/ridge average otherwise; in particular a
duo-pitch building of width 30 with eave 6 and ridge 16 has slope
atan(2/3) > 10 degrees and mean roof height (6 + 16) / 2 = 11. -/
theorem cubierta_altura_media_correcta :
    (∀ c : Cubierta, c.altura_media =
      if c.angulo ≤ 10 then c.altura_alero else (c.altura_alero + c.altura_cumbrera) / 2) ∧
    Cubierta.altura_media ⟨30, 60, 6, 16, TipoCubierta.DOS_AGUAS, 0, 0, 0,
      PosicionBloqueoCubierta.ALERO_BAJO⟩ = 11 := by
  have hpi := Real.pi_pos
  refine ⟨fun c => rfl, ?_⟩
  have hcum : Cubierta.altura_cumbrera ⟨30, 60, 6, 16, TipoCubierta.DOS_AGUAS, 0, 0, 0,
      PosicionBloqueoCubierta.ALERO_BAJO⟩ = 16 := by
    rw [Cubierta.altura_cumbrera, if_neg (by decide)]
  have hang : ¬ Cubierta.angulo ⟨30, 60, 6, 16, TipoCubierta.DOS_AGUAS, 0, 0, 0,
      PosicionBloqueoCubierta.ALERO_BAJO⟩ ≤ 10 := by
    unfold Cubierta.angulo
    rw [hcum]
    rw [not_le]
    have harg : ((16 : ℝ) - 6) / 30 *
        (if TipoCubierta.DOS_AGUAS = TipoCubierta.DOS_AGUAS then (2 : ℝ) else 1) = 2 / 3 := by
      norm_num
    rw [show Cubierta.altura_alero ⟨30, 60, 6, 16, TipoCubierta.DOS_AGUAS, 0, 0, 0,
      PosicionBloqueoCubierta.ALERO_BAJO⟩ = 6 from rfl]
    rw [show Cubierta.ancho ⟨30, 60, 6, 16, TipoCubierta.DOS_AGUAS, 0, 0, 0,
      PosicionBloqueoCubierta.ALERO_BAJO⟩ = 30 from rfl]
    rw [show Cubierta.tipo_cubierta ⟨30, 60, 6, 16, TipoCubierta.DOS_AGUAS, 0, 0, 0,
      PosicionBloqueoCubierta.ALERO_BAJO⟩ = TipoCubierta.DOS_AGUAS from rfl]
    rw [harg]
    rw [lt_div_iff₀ hpi]
    have := arctan_dos_tercios_gt
    nlinarith [this]
  unfold Cubierta.altura_media
  rw [if_neg hang, hcum]
  norm_num
